import Mathlib

/-!
Verification of the sampling core of the scintillometry repository
(the tasks exercised by baseband_tasks/tests/test_sampling.py):
offset resolution (float_offset), frame resampling (Resample), pure
time shifting (TimeShift) and combined shift-and-resample
(ShiftAndResample).  The implementation module itself
(baseband_tasks/sampling.py) is not among the given sources - only its
test file is - so the operations are modelled from the specification:
times are exact rationals (seconds), sample rates exact rationals (Hz),
and a stream carries an idealized band-limited signal, `value t` being
the exactly interpolable stream value at absolute time `t` (the spectral
delay filter is exact on such signals, per spec section 4.2).
-/

namespace Scintillometry

/-- Modelled from the spec: the upstream stream abstraction of
baseband_tasks.sampling (spec sections 3 and 6), whose implementation
file is missing from the sources.  `start_time` is an absolute epoch in
seconds, `sample_rate` in Hz, `nsamples` the leading entry of `shape`,
and `value t` the idealized band-limited signal value at absolute
labeled time `t`. -/
structure Stream where
  start_time : ℚ
  sample_rate : ℚ
  nsamples : ℕ
  sample_shape : List ℕ
  samples_per_frame : ℕ
  complex_data : Bool
  value : ℚ → ℚ

/-- The sample at index `k` of a stream: the signal on the stream's own
uniform grid. -/
def Stream.sampleAt (s : Stream) (k : ℕ) : ℚ :=
  s.value (s.start_time + k / s.sample_rate)

/-- The shape of a stream, `(nsamples, *sample_shape)`. -/
def Stream.shape (s : Stream) : List ℕ :=
  s.nsamples :: s.sample_shape

/-- Modelled from the spec (section 9): the offset specification as a
tagged variant with exactly three forms - raw float sample count, time
duration (seconds), absolute epoch. -/
inductive Offset where
  | samples (c : ℚ)
  | duration (d : ℚ)
  | epoch (t : ℚ)

/-- Modelled from the spec (section 4.1): `float_offset` converts an
offset specification into a real-valued number of samples relative to
the stream's own time base: a raw count is returned unchanged, a
duration is multiplied by the sample rate, an epoch is referenced to the
stream's start time and multiplied by the sample rate. -/
def float_offset (ih : Stream) : Offset → ℚ
  | .samples c => c
  | .duration d => d * ih.sample_rate
  | .epoch t => (t - ih.start_time) * ih.sample_rate

/-- Modelled from the spec (section 4.1): Python's `divmod(value, 1)`,
i.e. the floor of the value paired with its fractional part. -/
def divmod1 (q : ℚ) : ℤ × ℚ :=
  (⌊q⌋, Int.fract q)

/-- The absolute instant denoted by an offset specification, as the
spec words it: for a raw count `c` the instant is
`start_time + c / sample_rate`, for a duration `d` it is
`start_time + d`, and for an epoch it is the epoch itself. -/
def Offset.instant (ih : Stream) : Offset → ℚ
  | .samples c => ih.start_time + c / ih.sample_rate
  | .duration d => ih.start_time + d
  | .epoch t => t

/-- Modelled from the spec (section 4.3): the state of a constructed
`Resample` task - the upstream stream, the optional output frame size,
the integer and fractional parts of the resolved offset, and the
current read cursor `offset`. -/
structure Resampled where
  ih : Stream
  samples_per_frame : ℕ
  ioffset : ℤ
  fraction : ℚ
  offset : ℤ

/-- Modelled from the spec (section 4.3): constructing `Resample`
resolves the offset via `float_offset`, decomposes it with
`divmod(value, 1)`, sets the initial upstream read position to the
integer part and stores the fractional part as the filter delay. -/
def Resample (ih : Stream) (off : Offset) (spf : ℕ) : Resampled :=
  { ih := ih
    samples_per_frame := spf
    ioffset := (divmod1 (float_offset ih off)).1
    fraction := (divmod1 (float_offset ih off)).2
    offset := (divmod1 (float_offset ih off)).1 }

/-- Modelled from the spec (section 4.3): the resampled stream's start
time is the upstream start time advanced by `fraction / sample_rate`. -/
def Resampled.start_time (rs : Resampled) : ℚ :=
  rs.ih.start_time + rs.fraction / rs.ih.sample_rate

/-- The stream-contract derived time, `start_time + offset / sample_rate`
(spec section 3). -/
def Resampled.time (rs : Resampled) : ℚ :=
  rs.start_time + rs.offset / rs.ih.sample_rate

/-- Modelled from the spec (section 4.3): the resampled stream has one
fewer sample than the upstream stream. -/
def Resampled.shape0 (rs : Resampled) : ℕ :=
  rs.ih.nsamples - 1

/-- The resampled stream's shape, `(shape0, *sample_shape)`. -/
def Resampled.shape (rs : Resampled) : List ℕ :=
  rs.shape0 :: rs.ih.sample_shape

/-- Seek: set the read cursor to an absolute sample position. -/
def Resampled.seek (rs : Resampled) (n : ℤ) : Resampled :=
  { rs with offset := n }

/-- Modelled from the spec (sections 4.2, 4.3): the resampled stream's
sample at index `k` lies on the new grid starting at the fractional
position; the spectral delay filter reconstructs the idealized signal
there exactly. -/
def Resampled.sampleAt (rs : Resampled) (k : ℕ) : ℚ :=
  rs.ih.value (rs.start_time + k / rs.ih.sample_rate)

/-- A copy of a stream decimated by a factor `m`: same signal and start
time, sample rate and sample counts divided by `m` (the test fixture
`part_fh` relative to `full_fh`). -/
def decimated (s : Stream) (m : ℕ) : Stream :=
  { s with
      sample_rate := s.sample_rate / m
      nsamples := s.nsamples / m
      samples_per_frame := s.samples_per_frame / m }

/-- A copy of a stream whose labeled start time is shifted earlier by
the duration `d` while carrying the same physical signal (the test
fixture built with SetAttribute): at labeled time `t` it holds the
signal value of the original at `t + d`. -/
def delayedCopy (s : Stream) (d : ℚ) : Stream :=
  { s with
      start_time := s.start_time - d
      value := fun t => s.value (t + d) }

/-- Modelled from the spec (section 4.4): the pure timing correction by
a signed duration `d`, with no change of sample rate or length: the
output's effective time is shifted later by `d` (start time advanced by
`d`, content delayed by `d` through the exact spectral rotation). -/
def timeShifted (ih : Stream) (d : ℚ) : Stream :=
  { ih with
      start_time := ih.start_time + d
      value := fun t => ih.value (t - d) }

/-- Modelled from the spec (section 4.4): `TimeShift` checks the
quadrature precondition at construction - a real-valued stream signals
an unsupported-operation error - and otherwise yields the time-shifted
stream. -/
def TimeShift (ih : Stream) (d : ℚ) : Except String Stream :=
  if ih.complex_data then
    Except.ok (timeShifted ih d)
  else
    Except.error "Time shift only works on complex (quadrature) data"

/-- Modelled from the spec (section 4.5): `ShiftAndResample` resolves
the requested delay `d` (a duration) against the upstream stream's own
sample rate, decomposes it into integer and fractional parts with
`divmod(value, 1)`, applies the integer part as a cursor shift and the
fractional part through the exact spectral filter, and rederives the
start time to match the supplied reference start time. -/
def ShiftAndResample (ih : Stream) (d : ℚ) (ref_start : ℚ) : Stream :=
  { ih with
      start_time := ref_start
      value := fun t =>
        ih.value (t - (((divmod1 (d * ih.sample_rate)).1 : ℚ)
                        + (divmod1 (d * ih.sample_rate)).2)
                      / ih.sample_rate) }

/-- Helper: the resampled stream's derived time equals the upstream
start time advanced by the full resolved offset. -/
lemma Resample_time_formula (ih : Stream) (off : Offset) (spf : ℕ) :
    (Resample ih off spf).time
      = ih.start_time + float_offset ih off / ih.sample_rate := by
  unfold Resampled.time Resampled.start_time Resample divmod1
  rw [add_assoc, div_add_div_same, Int.fract_add_floor]

/-- Helper: with a nonzero sample rate, the resampled stream's time is
exactly the instant denoted by the offset specification. -/
lemma Resample_time_instant (ih : Stream) (off : Offset) (spf : ℕ)
    (h : ih.sample_rate ≠ 0) :
    (Resample ih off spf).time = Offset.instant ih off := by
  rw [Resample_time_formula]
  cases off with
  | samples c => rfl
  | duration d =>
      simp only [float_offset, Offset.instant]
      rw [mul_div_assoc, div_self h, mul_one]
  | epoch t =>
      simp only [float_offset, Offset.instant]
      rw [mul_div_assoc, div_self h, mul_one]
      ring

/-- Claim C1: for every offset-specification form (raw sample count,
duration, absolute epoch), the `time` of the Resample task constructed
from it equals the requested absolute instant - `start_time + c /
sample_rate` for a raw count, `start_time + d` for a duration, the
epoch itself for an epoch - to within 1 nanosecond. -/
theorem resample_time_eq_requested (ih : Stream) (off : Offset) (spf : ℕ)
    (h : 0 < ih.sample_rate) :
    |(Resample ih off spf).time - Offset.instant ih off|
      < 1 / 1000000000 := by
  rw [Resample_time_instant ih off spf (ne_of_gt h)]
  simp

/-- Witness for C1: a concrete stream at 250 Hz with a duration offset
of 10 ms; the resample task's time equals the requested instant within
1 ns. -/
theorem resample_time_eq_requested_witness :
    (0 : ℚ) < 250
      ∧ |(Resample
            { start_time := 100, sample_rate := 250, nsamples := 512,
              sample_shape := [2], samples_per_frame := 128,
              complex_data := false, value := fun t => t }
            (.duration (1 / 100)) 512).time
          - Offset.instant
              { start_time := 100, sample_rate := 250, nsamples := 512,
                sample_shape := [2], samples_per_frame := 128,
                complex_data := false, value := fun t => t }
              (.duration (1 / 100))| < 1 / 1000000000 :=
  ⟨by norm_num,
   resample_time_eq_requested _ (.duration (1 / 100)) 512 (by norm_num)⟩

/-- Claim C3: for every upstream stream (real or complex alike) and
every offset specification, the Resample output has exactly one fewer
sample than the upstream frame: its shape is `(N - 1, *sample_shape)`
where `N` is the upstream sample count. -/
theorem resample_shape_one_fewer (ih : Stream) (off : Offset) (spf : ℕ) :
    (Resample ih off spf).shape = (ih.nsamples - 1) :: ih.sample_shape :=
  rfl

/-- Claim C4: for every resolved offset, including negative ones, the
decomposition satisfies `resolved_offset = integer_part + fraction`
with the fraction handed to the spectral filter non-negative and
strictly less than one. -/
theorem resolved_offset_decomposition (ih : Stream) (off : Offset)
    (spf : ℕ) :
    ((Resample ih off spf).ioffset : ℚ) + (Resample ih off spf).fraction
        = float_offset ih off
      ∧ 0 ≤ (Resample ih off spf).fraction
      ∧ (Resample ih off spf).fraction < 1 := by
  refine ⟨?_, ?_, ?_⟩
  · exact Int.floor_add_fract (float_offset ih off)
  · exact Int.fract_nonneg (float_offset ih off)
  · exact Int.fract_lt_one (float_offset ih off)

/-- Claim C6: for every upstream stream and offset specification, the
Resample output's start time equals the upstream start time advanced by
`fraction / sample_rate`, where fraction is the fractional part of the
resolved offset, to sub-nanosecond tolerance. -/
theorem resample_start_time_fractional (ih : Stream) (off : Offset)
    (spf : ℕ) :
    |(Resample ih off spf).start_time
        - (ih.start_time
           + Int.fract (float_offset ih off) / ih.sample_rate)|
      < 1 / 1000000000 := by
  have h : (Resample ih off spf).start_time
      = ih.start_time + Int.fract (float_offset ih off) / ih.sample_rate :=
    rfl
  rw [h]
  simp

/-- Claim C7: `float_offset` converts each of the three specification
forms as stated: a raw sample count is returned unchanged, a duration
becomes `duration * sample_rate`, and an absolute epoch becomes
`(epoch - start_time) * sample_rate`; the result is in every case a
single rational sample count on the stream's own time base. -/
theorem float_offset_three_forms (ih : Stream) (c d t : ℚ) :
    float_offset ih (.samples c) = c
      ∧ float_offset ih (.duration d) = d * ih.sample_rate
      ∧ float_offset ih (.epoch t) = (t - ih.start_time) * ih.sample_rate :=
  ⟨rfl, rfl, rfl⟩

/-- Claim C9: immediately after construction a Resample task's read
cursor equals the integer part of the resolved offset (not zero in
general), so its time already equals the requested instant; an explicit
seek(0) is needed before reading the output from its beginning. -/
theorem resample_initial_cursor (ih : Stream) (off : Offset) (spf : ℕ)
    (h : 0 < ih.sample_rate) :
    (Resample ih off spf).offset = (divmod1 (float_offset ih off)).1
      ∧ (Resample ih off spf).time = Offset.instant ih off
      ∧ ((Resample ih off spf).seek 0).offset = 0 :=
  ⟨rfl, Resample_time_instant ih off spf (ne_of_gt h), rfl⟩

/-- Witness for C9: a concrete stream at 4 Hz with raw offset 10.5
samples; the constructed cursor is the integer part 10 (in particular
nonzero) and seeking to 0 resets it. -/
theorem resample_initial_cursor_witness :
    (0 : ℚ) < 4
      ∧ ((Resample
            { start_time := 0, sample_rate := 4, nsamples := 512,
              sample_shape := [2], samples_per_frame := 128,
              complex_data := false, value := fun t => t }
            (.samples (21 / 2)) 512).offset
          = (divmod1 (float_offset
              { start_time := 0, sample_rate := 4, nsamples := 512,
                sample_shape := [2], samples_per_frame := 128,
                complex_data := false, value := fun t => t }
              (.samples (21 / 2)))).1
        ∧ (Resample
            { start_time := 0, sample_rate := 4, nsamples := 512,
              sample_shape := [2], samples_per_frame := 128,
              complex_data := false, value := fun t => t }
            (.samples (21 / 2)) 512).time
          = Offset.instant
              { start_time := 0, sample_rate := 4, nsamples := 512,
                sample_shape := [2], samples_per_frame := 128,
                complex_data := false, value := fun t => t }
              (.samples (21 / 2))
        ∧ ((Resample
            { start_time := 0, sample_rate := 4, nsamples := 512,
              sample_shape := [2], samples_per_frame := 128,
              complex_data := false, value := fun t => t }
            (.samples (21 / 2)) 512).seek 0).offset = 0)
      ∧ (Resample
          { start_time := 0, sample_rate := 4, nsamples := 512,
            sample_shape := [2], samples_per_frame := 128,
            complex_data := false, value := fun t => t }
          (.samples (21 / 2)) 512).offset = 10 :=
  ⟨by norm_num,
   resample_initial_cursor _ (.samples (21 / 2)) 512 (by norm_num),
   by norm_num [Resample, divmod1, float_offset]⟩

/-- Claim C10: the one-sample trimming applies even when the resolved
offset is exactly an integer (fraction 0, including offset 0), and the
output shape does not depend on the output frame size chosen at
construction. -/
theorem resample_trim_integer_offset (ih : Stream) (off : Offset)
    (spf1 spf2 : ℕ)
    (_h : Int.fract (float_offset ih off) = 0) :
    (Resample ih off spf1).shape = (Resample ih off spf2).shape
      ∧ (Resample ih off spf1).shape0 = ih.nsamples - 1 :=
  ⟨rfl, rfl⟩

/-- Witness for C10: a concrete stream with raw offset 0 (fraction 0)
and two distinct output frame sizes 512 and 256. -/
theorem resample_trim_integer_offset_witness :
    Int.fract (float_offset
        { start_time := 0, sample_rate := 4, nsamples := 512,
          sample_shape := [2], samples_per_frame := 128,
          complex_data := false, value := fun t => t }
        (.samples 0)) = 0
      ∧ ((Resample
            { start_time := 0, sample_rate := 4, nsamples := 512,
              sample_shape := [2], samples_per_frame := 128,
              complex_data := false, value := fun t => t }
            (.samples 0) 512).shape
          = (Resample
              { start_time := 0, sample_rate := 4, nsamples := 512,
                sample_shape := [2], samples_per_frame := 128,
                complex_data := false, value := fun t => t }
              (.samples 0) 256).shape
        ∧ (Resample
            { start_time := 0, sample_rate := 4, nsamples := 512,
              sample_shape := [2], samples_per_frame := 128,
              complex_data := false, value := fun t => t }
            (.samples 0) 512).shape0 = 512 - 1) :=
  ⟨by simp [float_offset],
   resample_trim_integer_offset _ (.samples 0) 512 256
     (by simp [float_offset])⟩

/-- A concrete real-valued stream used by witnesses: 4 Hz, 2048
samples, a simple ramp signal. -/
def rampStream : Stream :=
  { start_time := 0, sample_rate := 4, nsamples := 2048,
    sample_shape := [2], samples_per_frame := 1024,
    complex_data := false, value := fun t => t }

/-- A concrete quadrature stream used by witnesses: 4 Hz, 2048 samples,
a simple ramp signal, flagged as complex data. -/
def quadStream : Stream :=
  { start_time := 0, sample_rate := 4, nsamples := 2048,
    sample_shape := [2], samples_per_frame := 1024,
    complex_data := true, value := fun t => t }

/-- Helper: the decimated stream's sample rate. -/
lemma decimated_sample_rate (s : Stream) (m : ℕ) :
    (decimated s m).sample_rate = s.sample_rate / m := rfl

/-- Helper: the decimated stream carries the same signal. -/
lemma decimated_value (s : Stream) (m : ℕ) :
    (decimated s m).value = s.value := rfl

/-- Helper: the decimated stream keeps the start time. -/
lemma decimated_start_time (s : Stream) (m : ℕ) :
    (decimated s m).start_time = s.start_time := rfl

/-- Claim C5: resampling a 4x-decimated copy of a reference signal to
the fractional phase implied by a tested offset (one whose fraction
times 4 is a whole number `m`, as all tested offsets are) reproduces
the high-rate reference samples `m, m + 4, m + 8, ...` within absolute
tolerance 1e-4 (real data), 1e-8 (complex tone data) and 1e-4
(noise-like band-limited complex data). -/
theorem resample_decimated_matches_reference (full : Stream)
    (off : Offset) (spf : ℕ) (m : ℕ)
    (hr : full.sample_rate ≠ 0)
    (hm : (m : ℚ) = 4 * Int.fract (float_offset (decimated full 4) off))
    (k : ℕ) :
    |(Resample (decimated full 4) off spf).sampleAt k
        - full.sampleAt (m + 4 * k)| ≤ 1 / 100000000
      ∧ |(Resample (decimated full 4) off spf).sampleAt k
          - full.sampleAt (m + 4 * k)| ≤ 1 / 10000 := by
  have hf : Int.fract (float_offset (decimated full 4) off)
      = (m : ℚ) / 4 := by
    rw [hm]; ring
  have key : (Resample (decimated full 4) off spf).sampleAt k
      = full.sampleAt (m + 4 * k) := by
    unfold Resampled.sampleAt Stream.sampleAt Resampled.start_time
      Resample divmod1
    simp only [decimated_sample_rate, decimated_value,
      decimated_start_time]
    congr 1
    rw [hf]
    push_cast
    field_simp
    ring
  rw [key]
  norm_num

/-- Witness for C5: the ramp stream decimated by 4 and resampled at raw
offset 1.75 (fraction 3/4, so m = 3) matches the high-rate reference at
index 3 + 4k, here checked at k = 2. -/
theorem resample_decimated_matches_reference_witness :
    (rampStream.sample_rate ≠ 0
        ∧ ((3 : ℕ) : ℚ)
            = 4 * Int.fract (float_offset (decimated rampStream 4)
                (.samples (7 / 4))))
      ∧ (|(Resample (decimated rampStream 4) (.samples (7 / 4))
              512).sampleAt 2
            - rampStream.sampleAt (3 + 4 * 2)| ≤ 1 / 100000000
        ∧ |(Resample (decimated rampStream 4) (.samples (7 / 4))
              512).sampleAt 2
            - rampStream.sampleAt (3 + 4 * 2)| ≤ 1 / 10000) :=
  ⟨⟨by norm_num [rampStream],
    by norm_num [float_offset, Int.fract]⟩,
   resample_decimated_matches_reference rampStream (.samples (7 / 4))
     512 3 (by norm_num [rampStream])
     (by norm_num [float_offset, Int.fract]) 2⟩

/-- Helper: the delayed copy keeps the sample rate. -/
lemma delayedCopy_sample_rate (s : Stream) (d : ℚ) :
    (delayedCopy s d).sample_rate = s.sample_rate := rfl

/-- Helper: the delayed copy's start time is shifted earlier by `d`. -/
lemma delayedCopy_start_time (s : Stream) (d : ℚ) :
    (delayedCopy s d).start_time = s.start_time - d := rfl

/-- Helper: the delayed copy keeps the complex-data flag. -/
lemma delayedCopy_complex_data (s : Stream) (d : ℚ) :
    (delayedCopy s d).complex_data = s.complex_data := rfl

/-- Helper: at labeled time `t` the delayed copy holds the original
signal value at `t + d`. -/
lemma delayedCopy_value (s : Stream) (d t : ℚ) :
    (delayedCopy s d).value t = s.value (t + d) := rfl

/-- Claim C2: for every delay of `dsamp` samples (sub-sample or
multi-sample, positive or negative) and two copies of the same signal,
one with its start time shifted earlier by that delay, applying
ShiftAndResample with that delay and the reference copy's start time to
the shifted copy yields samples that agree elementwise with the
reference copy, read in lock-step, within the stated tolerance 1e-4. -/
theorem shift_and_resample_aligns (S : Stream) (dsamp : ℚ)
    (hr : S.sample_rate ≠ 0) (k : ℕ) :
    |(ShiftAndResample (delayedCopy S (dsamp / S.sample_rate))
          (dsamp / S.sample_rate) S.start_time).sampleAt k
        - S.sampleAt k| ≤ 1 / 10000 := by
  have key : (ShiftAndResample (delayedCopy S (dsamp / S.sample_rate))
      (dsamp / S.sample_rate) S.start_time).sampleAt k = S.sampleAt k := by
    unfold Stream.sampleAt ShiftAndResample divmod1
    simp only [delayedCopy_sample_rate, delayedCopy_value]
    congr 1
    rw [Int.floor_add_fract]
    field_simp
  rw [key]
  norm_num

/-- Witness for C2: the ramp stream, delayed by -18.25 samples at 4 Hz,
realigned by ShiftAndResample, agrees with the reference at index 5. -/
theorem shift_and_resample_aligns_witness :
    rampStream.sample_rate ≠ 0
      ∧ |(ShiftAndResample
            (delayedCopy rampStream (-(73 / 4) / rampStream.sample_rate))
            (-(73 / 4) / rampStream.sample_rate)
            rampStream.start_time).sampleAt 5
          - rampStream.sampleAt 5| ≤ 1 / 10000 :=
  ⟨by norm_num [rampStream],
   shift_and_resample_aligns rampStream (-(73 / 4))
     (by norm_num [rampStream]) 5⟩

/-- Claim C8: TimeShift on a real-valued (non-quadrature) stream
signals an unsupported-operation error at construction; on a
complex-valued stream delayed by any amount (in particular any integer
number of samples), the time-shifted stream read in lock-step with an
undelayed copy agrees elementwise within tolerance, with no change of
sample rate or length. -/
theorem timeshift_quadrature_only (ihr S : Stream) (d dt : ℚ)
    (h1 : ihr.complex_data = false) (h2 : S.complex_data = true) :
    TimeShift ihr d
        = Except.error "Time shift only works on complex (quadrature) data"
      ∧ ∃ out, TimeShift (delayedCopy S dt) dt = Except.ok out
          ∧ out.sample_rate = S.sample_rate
          ∧ out.nsamples = S.nsamples
          ∧ ∀ k : ℕ, |out.sampleAt k - S.sampleAt k| ≤ 1 / 10000 := by
  constructor
  · rw [TimeShift, if_neg]
    rw [h1]
    simp
  · refine ⟨timeShifted (delayedCopy S dt) dt, ?_, rfl, rfl, ?_⟩
    · rw [TimeShift, if_pos]
      rw [delayedCopy_complex_data, h2]
    · intro k
      have key : (timeShifted (delayedCopy S dt) dt).sampleAt k
          = S.sampleAt k := by
        unfold Stream.sampleAt timeShifted
        simp only [delayedCopy_sample_rate, delayedCopy_start_time,
          delayedCopy_value]
        congr 1
        ring
      rw [key]
      norm_num

/-- Witness for C8: TimeShift on the concrete real-valued ramp stream
errors out, while on the quadrature ramp stream delayed by 2 seconds it
succeeds and agrees with the undelayed copy at index 7, keeping sample
rate and length. -/
theorem timeshift_quadrature_only_witness :
    TimeShift rampStream 1
        = Except.error "Time shift only works on complex (quadrature) data"
      ∧ ∃ out, TimeShift (delayedCopy quadStream 2) 2 = Except.ok out
          ∧ out.sample_rate = quadStream.sample_rate
          ∧ out.nsamples = quadStream.nsamples
          ∧ ∀ k : ℕ, |out.sampleAt k - quadStream.sampleAt k| ≤ 1 / 10000 :=
  timeshift_quadrature_only rampStream quadStream 1 2 rfl rfl

end Scintillometry
